import Mathlib

/-!
# Virtual-Instrument: the per-voice render pipeline

A shallow embedding of `Source/SynthVoice.h` and `Source/LFO.h`.

Modelling conventions.

* C++ `float`/`double` values are idealised as exact rationals (`ℚ`): every
  statement below is about the arithmetic the source text denotes, not about
  IEEE rounding.
* C++ `int` values (`lfoDest`, `unison`, `lastNote`, MIDI note numbers) are
  `Int`; the code only compares and copies them, so no wrap-around arises.
* Everything the voice calls but whose body is not part of the two headers is a
  field of `Env`: `std::sin`, the constant `twoPi`, the helper functions
  `hzFromSemi`, `centsToRatio` and `wavefold`, and the JUCE envelope, filter,
  chorus and reverb objects.  Theorems quantify over every `Env`.
* `juce::jlimit` and `juce::jmap` are two-line JUCE templates; they are
  transcribed from the JUCE headers.
-/

namespace VirtualInstrument

/-! ## JUCE arithmetic templates -/

/-- JUCE `jlimit (lowerLimit, upperLimit, valueToConstrain)`:
`v < lo ? lo : (hi < v ? hi : v)`. -/
def jlimit (lowerLimit upperLimit valueToConstrain : ℚ) : ℚ :=
  if valueToConstrain < lowerLimit then lowerLimit
  else if upperLimit < valueToConstrain then upperLimit
  else valueToConstrain

/-- JUCE five-argument `jmap`:
`tMin + ((tMax - tMin) * (v - sMin)) / (sMax - sMin)`. -/
def jmap (sourceValue sourceRangeMin sourceRangeMax targetRangeMin targetRangeMax : ℚ) : ℚ :=
  targetRangeMin
    + ((targetRangeMax - targetRangeMin) * (sourceValue - sourceRangeMin))
        / (sourceRangeMax - sourceRangeMin)

/-! ## External collaborators -/

/-- JUCE `ADSR::Parameters`. -/
structure ADSRParameters where
  attack : ℚ
  decay : ℚ
  sustain : ℚ
  release : ℚ

/-- Everything the two headers use without defining it. -/
structure Env where
  /-- The function `std::sin`. -/
  sin : ℚ → ℚ
  /-- The constant `juce::MathConstants<float>::twoPi`. -/
  twoPi : ℚ
  /-- The helper `hzFromSemi (baseHz, semitones)`, called at lines 112-113. -/
  hzFromSemi : ℚ → ℚ → ℚ
  /-- The helper `centsToRatio (cents)`, called at line 123. -/
  centsToRatio : ℚ → ℚ
  /-- The helper `wavefold (sample, amount)`, called at line 135. -/
  wavefold : ℚ → ℚ → ℚ
  /-- The function `juce::MidiMessage::getMidiNoteInHertz`. -/
  getMidiNoteInHertz : Int → ℚ
  /-- State of a `juce::ADSR`. -/
  ADSR : Type
  /-- State of a `juce::dsp::StateVariableTPTFilter<float>`. -/
  Filter : Type
  /-- State of a `juce::dsp::Chorus<float>`. -/
  Chorus : Type
  /-- State of a `juce::dsp::Reverb`. -/
  Reverb : Type
  /-- The call `env.reset (sr)` as written at line 41. -/
  adsrReset : ℚ → ADSR → ADSR
  adsrSetParameters : ADSRParameters → ADSR → ADSR
  adsrNoteOn : ADSR → ADSR
  adsrNoteOff : ADSR → ADSR
  adsrIsActive : ADSR → Bool
  /-- The call `getNextSample ()`: the returned level and the advanced envelope. -/
  adsrGetNextSample : ADSR → ℚ × ADSR
  filterReset : Filter → Filter
  filterSetCutoffFrequency : ℚ → Filter → Filter
  filterSetResonance : ℚ → Filter → Filter
  /-- The call `processSample (channel, x)`: the output sample and the advanced filter. -/
  filterProcessSample : Int → ℚ → Filter → ℚ × Filter
  chorusReset : Chorus → Chorus
  reverbReset : Reverb → Reverb

/-! ## `MorphOsc` (SynthVoice.h lines 6-24) -/

/-- The data members of `MorphOsc` (line 23). -/
structure MorphOsc where
  sr : ℚ
  phase : ℚ
  freq : ℚ
  shape : ℚ

/-- The in-class initialisers of line 23. -/
def MorphOsc.init : MorphOsc := { sr := 44100, phase := 0, freq := 100, shape := 0 }

def MorphOsc.prepare (o : MorphOsc) (sampleRate : ℚ) : MorphOsc := { o with sr := sampleRate }

def MorphOsc.setFreq (o : MorphOsc) (f : ℚ) : MorphOsc := { o with freq := f }

def MorphOsc.setShape (o : MorphOsc) (s01 : ℚ) : MorphOsc := { o with shape := jlimit 0 1 s01 }

def MorphOsc.reset (o : MorphOsc) : MorphOsc := { o with phase := 0 }

/-- Method `MorphOsc::process` (lines 11-22): the returned sample and the oscillator
after the call. -/
def MorphOsc.process (X : Env) (o : MorphOsc) : ℚ × MorphOsc :=
  let phase := o.phase + o.freq / o.sr
  let phase := if phase ≥ 1 then phase - 1 else phase
  let s := X.sin (X.twoPi * phase)
  let saw := 2 * phase - 1
  let square : ℚ := if phase < 0.5 then 1 else -1
  let mix1 := jmap o.shape 0 0.5 0 1
  let mix1 := jlimit 0 1 mix1
  let a := jmap mix1 0 1 s saw
  let mix2 := jmap o.shape 0.5 1 0 1
  let mix2 := jlimit 0 1 mix2
  (jmap mix2 0 1 a square, { o with phase := phase })

/-! ## `SimpleLFO` (LFO.h) -/

/-- The data members of `SimpleLFO` (line 13). -/
structure SimpleLFO where
  sr : ℚ
  phase : ℚ
  rate : ℚ
  depth : ℚ

def SimpleLFO.init : SimpleLFO := { sr := 44100, phase := 0, rate := 1, depth := 0 }

def SimpleLFO.prepare (g : SimpleLFO) (sampleRate : ℚ) : SimpleLFO := { g with sr := sampleRate }

def SimpleLFO.set (g : SimpleLFO) (rateHz depth01 : ℚ) : SimpleLFO :=
  { g with rate := rateHz, depth := depth01 }

def SimpleLFO.reset (g : SimpleLFO) : SimpleLFO := { g with phase := 0 }

/-- Method `SimpleLFO::process` (lines 8-12): the returned value and the LFO after the
call. -/
def SimpleLFO.process (X : Env) (g : SimpleLFO) : ℚ × SimpleLFO :=
  let out := X.sin (X.twoPi * g.phase)
  let phase := g.phase + g.rate / g.sr
  let phase := if phase ≥ 1 then phase - 1 else phase
  (out * g.depth, { g with phase := phase })

/-! ## `SynthVoice` (SynthVoice.h lines 26-149) -/

/-- A `juce::AudioBuffer<float>`: one list of samples per channel. -/
abbrev AudioBuffer := List (List ℚ)

/-- The call `setSize (channels, num, ...)` followed by `clear ()` (lines 97-98). -/
def AudioBuffer.cleared (numChannels num : Nat) : AudioBuffer :=
  List.replicate numChannels (List.replicate num 0)

/-- Add `x` to entry `n` of one channel. -/
def addAt : List ℚ → Nat → ℚ → List ℚ
  | [], _, _ => []
  | a :: as, 0, x => (a + x) :: as
  | a :: as, n + 1, x => a :: addAt as n x

/-- The loop of lines 148-149: `addSample (ch, n, x)` for every channel. -/
def AudioBuffer.addSampleAll (b : AudioBuffer) (n : Nat) (x : ℚ) : AudioBuffer :=
  b.map (fun chan => addAt chan n x)

/-- The data members of `SynthVoice`.  `currentlyPlayingNote` is the one piece
of `juce::SynthesiserVoice` base-class state that `clearCurrentNote ()` writes;
`baseHz`, `lastNote`, `temp` and `sr` are the members the visible methods use. -/
structure SynthVoice (X : Env) where
  osc1 : MorphOsc
  osc2 : MorphOsc
  osc1Shape : ℚ
  osc2Shape : ℚ
  osc1Semi : ℚ
  osc2Semi : ℚ
  unison : Int
  detuneCents : ℚ
  foldDrive : ℚ
  envAmp : X.ADSR
  envFilter : X.ADSR
  ampParams : ADSRParameters
  filtParams : ADSRParameters
  filter : X.Filter
  cutoffHz : ℚ
  resonance : ℚ
  filterEnvAmt : ℚ
  lfo : SimpleLFO
  lfoRate : ℚ
  lfoDepth : ℚ
  lfoDest : Int
  chorus : X.Chorus
  reverb : X.Reverb
  baseHz : ℚ
  lastNote : Int
  temp : AudioBuffer
  sr : ℚ
  currentlyPlayingNote : Int

/-- Method `SynthVoice::reset` (lines 40-48). -/
def SynthVoice.reset {X : Env} (v : SynthVoice X) : SynthVoice X :=
  { v with
    envAmp := X.adsrReset v.sr v.envAmp
    envFilter := X.adsrReset v.sr v.envFilter
    lfo := v.lfo.reset
    osc1 := v.osc1.reset
    osc2 := v.osc2.reset
    filter := X.filterReset v.filter
    chorus := X.chorusReset v.chorus
    reverb := X.reverbReset v.reverb
    lastNote := -1 }

/-- JUCE `SynthesiserVoice::clearCurrentNote`: it resets the base-class note
number and touches no member of the derived class. -/
def SynthVoice.clearCurrentNote {X : Env} (v : SynthVoice X) : SynthVoice X :=
  { v with currentlyPlayingNote := -1 }

/-- Method `SynthVoice::startNote` (lines 73-77). -/
def SynthVoice.startNote {X : Env} (v : SynthVoice X) (midiNoteNumber : Int) (_velocity : ℚ) :
    SynthVoice X :=
  { v with
    baseHz := X.getMidiNoteInHertz midiNoteNumber
    envAmp := X.adsrNoteOn v.envAmp
    envFilter := X.adsrNoteOn v.envFilter
    lastNote := midiNoteNumber }

/-- Method `SynthVoice::stopNote` (lines 79-82). -/
def SynthVoice.stopNote {X : Env} (v : SynthVoice X) (_velocity : ℚ) (allowTailOff : Bool) :
    SynthVoice X :=
  let v1 : SynthVoice X :=
    { v with envAmp := X.adsrNoteOff v.envAmp, envFilter := X.adsrNoteOff v.envFilter }
  if !allowTailOff || !X.adsrIsActive v1.envAmp then v1.clearCurrentNote else v1

/-- The five router multipliers of lines 100-104. -/
structure Router where
  lfoToPitch : ℚ
  lfoToAmp : ℚ
  lfoToCut : ℚ
  lfoToFold : ℚ
  lfoToCrush : ℚ

/-- Lines 100-104 of `renderNextBlock`. -/
def router (lfoDest : Int) : Router :=
  { lfoToPitch := if lfoDest = 1 then 1 else 0
    lfoToAmp := if lfoDest = 2 then 1 else 0
    lfoToCut := if lfoDest = 3 then 1 else 0
    lfoToFold := if lfoDest = 4 then 1 else 0
    lfoToCrush := if lfoDest = 5 then 1 else 0 }

/-- The values one pass through the sample loop computes. -/
structure SampleOut where
  /-- The LFO value `l` (line 107). -/
  l : ℚ
  /-- The frequencies handed to `osc1.setFreq` and `osc2.setFreq`. -/
  f1 : ℚ
  f2 : ℚ
  /-- The per-oscillator samples after the unison block (lines 120-129). -/
  s1 : ℚ
  s2 : ℚ
  /-- The clamped fold amount (line 134). -/
  foldAmt : ℚ
  /-- The argument of `filter.setCutoffFrequency` (line 140). -/
  cutoff : ℚ
  /-- The filter output (line 142). -/
  y : ℚ
  /-- The final amplitude (lines 145-146). -/
  amp : ℚ

/-- One pass through the body of the sample loop, lines 107-149, for sample
index `n`.  The unused `hz1` of lines 109-110 has no effect and is left out. -/
def renderSample {X : Env} (r : Router) (n : Nat) (v : SynthVoice X) : SynthVoice X × SampleOut :=
  let lfoTick := v.lfo.process X
  let l := lfoTick.1
  let semiMod := l * 12 * r.lfoToPitch
  let f1 := X.hzFromSemi v.baseHz (v.osc1Semi + semiMod)
  let f2 := X.hzFromSemi v.baseHz (v.osc2Semi + semiMod)
  let osc1 := v.osc1.setFreq f1
  let osc2 := v.osc2.setFreq f2
  let osc1 := osc1.setShape v.osc1Shape
  let osc2 := osc2.setShape v.osc2Shape
  let tick1 := osc1.process X
  let tick2 := osc2.process X
  let s1 := tick1.1
  let osc1 := tick1.2
  let s2 := tick2.1
  let osc2 := tick2.2
  let s12 : ℚ × ℚ :=
    if v.unison = 3 then
      let det := X.centsToRatio v.detuneCents
      let u1a := osc1.setFreq (f1 * det)
      let u1b := osc1.setFreq (f1 / det)
      let u2a := osc2.setFreq (f2 * det)
      let u2b := osc2.setFreq (f2 / det)
      (0.3333 * (s1 + (u1a.process X).1 + (u1b.process X).1),
       0.3333 * (s2 + (u2a.process X).1 + (u2b.process X).1))
    else (s1, s2)
  let s1 := s12.1
  let s2 := s12.2
  let mixed := 0.5 * (s1 + s2)
  let foldAmt := jlimit 0 1 (v.foldDrive + l * r.lfoToFold)
  let mixed := X.wavefold mixed foldAmt
  let filtTick := X.adsrGetNextSample v.envFilter
  let filtEnv := filtTick.1
  let cutoffMod := v.filterEnvAmt * filtEnv + (l * 2000 * r.lfoToCut)
  let cutoff := jlimit 20 20000 (v.cutoffHz + cutoffMod)
  let filter := X.filterSetCutoffFrequency cutoff v.filter
  let filterTick := X.filterProcessSample 0 mixed filter
  let y := filterTick.1
  let ampTick := X.adsrGetNextSample v.envAmp
  let amp := ampTick.1
  let amp := if r.lfoToAmp > 0 then jlimit 0 1 (amp * (0.5 + 0.5 * (l + 1))) else amp
  let temp := v.temp.addSampleAll n (y * amp)
  ({ v with
      lfo := lfoTick.2, osc1 := osc1, osc2 := osc2, envFilter := filtTick.2
      filter := filterTick.2, envAmp := ampTick.2, temp := temp },
   { l := l, f1 := f1, f2 := f2, s1 := s1, s2 := s2, foldAmt := foldAmt
     cutoff := cutoff, y := y, amp := amp })

/-- What a call of `renderNextBlock` leaves behind: the voice, and the arguments
of every `filter.setCutoffFrequency` call in call order. -/
structure BlockResult (X : Env) where
  voice : SynthVoice X
  cutoffCalls : List ℚ

/-- One loop step: run the body and record the cutoff it hands to the filter. -/
def renderStep {X : Env} (r : Router) (acc : BlockResult X) (n : Nat) : BlockResult X :=
  let res := renderSample r n acc.voice
  { voice := res.1, cutoffCalls := acc.cutoffCalls ++ [res.2.cutoff] }

/-- Method `SynthVoice::renderNextBlock` (lines 87-149) for an output buffer with
`numChannels` channels and `num` samples.  The early return of line 88 happens
before the output buffer is read or written. -/
def SynthVoice.renderNextBlock {X : Env} (v : SynthVoice X) (numChannels num : Nat) :
    BlockResult X :=
  if v.lastNote < 0 then { voice := v, cutoffCalls := [] }
  else
    let v1 : SynthVoice X :=
      { v with
        envAmp := X.adsrSetParameters v.ampParams v.envAmp
        envFilter := X.adsrSetParameters v.filtParams v.envFilter
        lfo := v.lfo.set v.lfoRate v.lfoDepth
        filter := X.filterSetResonance v.resonance (X.filterSetCutoffFrequency v.cutoffHz v.filter)
        temp := AudioBuffer.cleared numChannels num }
    (List.range num).foldl (renderStep (router v.lfoDest))
      { voice := v1, cutoffCalls := [v.cutoffHz] }

/-! ## A concrete environment

The theorems below hold for every `Env`.  To exhibit concrete runs one instance
is fixed here: the JUCE envelope is transcribed from `juce_ADSR.h`, the sine is
tabulated at the quarter-turn points, and the remaining collaborators are the
simplest objects with the right interface. -/

/-- The stages of a `juce::ADSR`. -/
inductive ADSRState where
  | idle
  | attack
  | decay
  | sustain
  | release
  deriving DecidableEq, Repr

/-- The data members of a `juce::ADSR`. -/
structure JuceADSR where
  state : ADSRState
  parameters : ADSRParameters
  sampleRate : ℚ
  envelopeVal : ℚ
  attackRate : ℚ
  decayRate : ℚ
  releaseRate : ℚ

/-- JUCE `ADSR::reset`. -/
def JuceADSR.reset (e : JuceADSR) : JuceADSR := { e with envelopeVal := 0, state := .idle }

/-- JUCE `ADSR::goToNextState`. -/
def JuceADSR.goToNextState (e : JuceADSR) : JuceADSR :=
  match e.state with
  | .attack => { e with state := if e.decayRate > 0 then .decay else .sustain }
  | .decay => { e with state := .sustain }
  | .release => e.reset
  | _ => e

/-- The `getRate` lambda of JUCE `ADSR::recalculateRates`. -/
def JuceADSR.getRate (distance timeInSeconds sr : ℚ) : ℚ :=
  if timeInSeconds > 0 then distance / (timeInSeconds * sr) else -1

/-- JUCE `ADSR::setParameters` (with `recalculateRates` inlined). -/
def JuceADSR.setParameters (p : ADSRParameters) (e : JuceADSR) : JuceADSR :=
  let e1 : JuceADSR :=
    { e with
      parameters := p
      attackRate := JuceADSR.getRate 1 p.attack e.sampleRate
      decayRate := JuceADSR.getRate (1 - p.sustain) p.decay e.sampleRate
      releaseRate := JuceADSR.getRate p.sustain p.release e.sampleRate }
  if (e1.state = .attack ∧ e1.attackRate ≤ 0)
      ∨ (e1.state = .decay ∧ (e1.decayRate ≤ 0 ∨ e1.envelopeVal ≤ p.sustain))
      ∨ (e1.state = .release ∧ e1.releaseRate ≤ 0)
  then e1.goToNextState else e1

/-- JUCE `ADSR::noteOn`. -/
def JuceADSR.noteOn (e : JuceADSR) : JuceADSR :=
  if e.attackRate > 0 then { e with state := .attack }
  else if e.decayRate > 0 then { e with envelopeVal := 1, state := .decay }
  else { e with envelopeVal := e.parameters.sustain, state := .sustain }

/-- JUCE `ADSR::noteOff`. -/
def JuceADSR.noteOff (e : JuceADSR) : JuceADSR :=
  if e.state ≠ .idle then
    if e.parameters.release > 0 then
      { e with
        releaseRate := e.envelopeVal / (e.parameters.release * e.sampleRate)
        state := .release }
    else e.reset
  else e

/-- JUCE `ADSR::isActive`. -/
def JuceADSR.isActive (e : JuceADSR) : Bool := decide (e.state ≠ .idle)

/-- JUCE `ADSR::getNextSample`. -/
def JuceADSR.getNextSample (e : JuceADSR) : ℚ × JuceADSR :=
  match e.state with
  | .idle => (0, e)
  | .attack =>
    let e1 := { e with envelopeVal := e.envelopeVal + e.attackRate }
    let e2 := if e1.envelopeVal ≥ 1 then ({ e1 with envelopeVal := 1 } : JuceADSR).goToNextState else e1
    (e2.envelopeVal, e2)
  | .decay =>
    let e1 := { e with envelopeVal := e.envelopeVal - e.decayRate }
    let e2 :=
      if e1.envelopeVal ≤ e1.parameters.sustain then
        ({ e1 with envelopeVal := e1.parameters.sustain } : JuceADSR).goToNextState
      else e1
    (e2.envelopeVal, e2)
  | .sustain =>
    let e1 := { e with envelopeVal := e.parameters.sustain }
    (e1.envelopeVal, e1)
  | .release =>
    let e1 := { e with envelopeVal := e.envelopeVal - e.releaseRate }
    let e2 := if e1.envelopeVal ≤ 0 then e1.goToNextState else e1
    (e2.envelopeVal, e2)

/-- A freshly constructed `juce::ADSR` (default parameters, rates recalculated
for 44100 Hz). -/
def JuceADSR.init : JuceADSR :=
  JuceADSR.setParameters { attack := 0.1, decay := 0.1, sustain := 1, release := 0.1 }
    { state := .idle, parameters := { attack := 0.1, decay := 0.1, sustain := 1, release := 0.1 }
      sampleRate := 44100, envelopeVal := 0, attackRate := 0, decayRate := 0, releaseRate := 0 }

/-- A filter object that stores its settings and passes samples through. -/
structure PassFilter where
  cutoffFrequency : ℚ
  resonance : ℚ

/-- A sine table: exact at the quarter-turn points `0, twoPi/4, twoPi/2,
3 twoPi/4`, and `0` at every other argument. -/
def quarterSin (twoPi x : ℚ) : ℚ :=
  if x = twoPi / 4 then 1 else if x = 3 * twoPi / 4 then -1 else 0

/-- The concrete environment used for the concrete runs.  `hzFromSemi` is exact
at offsets of `0` and `±12` semitones, `centsToRatio` at `0` and `±1200` cents,
`getMidiNoteInHertz` at the notes `57`, `69` and `81`; `wavefold` is the
identity, its value at amount `0`. -/
def sampleEnv : Env where
  sin := quarterSin (710 / 113)
  twoPi := 710 / 113
  hzFromSemi := fun baseHz semi =>
    if semi = 12 then 2 * baseHz else if semi = -12 then baseHz / 2 else baseHz
  centsToRatio := fun cents => if cents = 1200 then 2 else if cents = -1200 then 1 / 2 else 1
  wavefold := fun x _ => x
  getMidiNoteInHertz := fun n => if n = 57 then 220 else if n = 81 then 880 else 440
  ADSR := JuceADSR
  Filter := PassFilter
  Chorus := Unit
  Reverb := Unit
  adsrReset := fun sr e => { e.reset with sampleRate := sr }
  adsrSetParameters := JuceADSR.setParameters
  adsrNoteOn := JuceADSR.noteOn
  adsrNoteOff := JuceADSR.noteOff
  adsrIsActive := JuceADSR.isActive
  adsrGetNextSample := JuceADSR.getNextSample
  filterReset := fun f => f
  filterSetCutoffFrequency := fun hz f => { f with cutoffFrequency := hz }
  filterSetResonance := fun q f => { f with resonance := q }
  filterProcessSample := fun _ x f => (x, f)
  chorusReset := fun c => c
  reverbReset := fun c => c

/-- A freshly constructed voice in `sampleEnv`: the in-class initialisers of
lines 51-66, and `lastNote = -1` as after `reset ()`. -/
def sampleVoice : SynthVoice sampleEnv where
  osc1 := MorphOsc.init
  osc2 := MorphOsc.init
  osc1Shape := 0
  osc2Shape := 0
  osc1Semi := 0
  osc2Semi := 0
  unison := 1
  detuneCents := 8
  foldDrive := 0
  envAmp := JuceADSR.init
  envFilter := JuceADSR.init
  ampParams := { attack := 0.1, decay := 0.1, sustain := 1, release := 0.1 }
  filtParams := { attack := 0.1, decay := 0.1, sustain := 1, release := 0.1 }
  filter := { cutoffFrequency := 1200, resonance := 0.7 }
  cutoffHz := 1200
  resonance := 0.7
  filterEnvAmt := 0
  lfo := SimpleLFO.init
  lfoRate := 5
  lfoDepth := 0
  lfoDest := 0
  chorus := ()
  reverb := ()
  baseHz := 0
  lastNote := -1
  temp := []
  sr := 44100
  currentlyPlayingNote := -1

/-! ## Vocabulary for the statements -/

/-- The five multipliers in the order pitch, amplitude, cutoff, fold, crush. -/
def Router.toList (r : Router) : List ℚ :=
  [r.lfoToPitch, r.lfoToAmp, r.lfoToCut, r.lfoToFold, r.lfoToCrush]

/-- The phase update shared by `MorphOsc::process` (line 12) and
`SimpleLFO::process` (line 10): add the increment, subtract `1` once if the sum
reached `1`. -/
def advancePhase (phase freq sr : ℚ) : ℚ :=
  if phase + freq / sr ≥ 1 then phase + freq / sr - 1 else phase + freq / sr

/-- The morph waveform of `MorphOsc::process` (lines 13-21) as a function of the
stored shape and the phase after the advance. -/
def morphWave (X : Env) (shape phase : ℚ) : ℚ :=
  let s := X.sin (X.twoPi * phase)
  let saw := 2 * phase - 1
  let square : ℚ := if phase < 0.5 then 1 else -1
  let a := jmap (jlimit 0 1 (jmap shape 0 0.5 0 1)) 0 1 s saw
  jmap (jlimit 0 1 (jmap shape 0.5 1 0 1)) 0 1 a square

/-- Membership in the half-open unit interval `[0,1)`. -/
def InUnit (p : ℚ) : Prop := 0 ≤ p ∧ p < 1

/-- Tick a `MorphOsc` once per listed frequency: `setFreq` then `process`. -/
def MorphOsc.ticks (X : Env) (o : MorphOsc) (freqs : List ℚ) : MorphOsc :=
  freqs.foldl (fun acc f => ((acc.setFreq f).process X).2) o

/-- Tick a `SimpleLFO` `n` times. -/
def SimpleLFO.ticks (X : Env) (g : SimpleLFO) : Nat → SimpleLFO
  | 0 => g
  | n + 1 => ((g.process X).2).ticks X n

/-- The frequency handed to `osc1.setFreq` at line 114. -/
def oscFreq1 {X : Env} (r : Router) (v : SynthVoice X) : ℚ :=
  X.hzFromSemi v.baseHz (v.osc1Semi + (v.lfo.process X).1 * 12 * r.lfoToPitch)

/-- The frequency handed to `osc2.setFreq` at line 115. -/
def oscFreq2 {X : Env} (r : Router) (v : SynthVoice X) : ℚ :=
  X.hzFromSemi v.baseHz (v.osc2Semi + (v.lfo.process X).1 * 12 * r.lfoToPitch)

/-- The primary oscillator `osc1` as it stands when line 120 calls `process ()`. -/
def tunedOsc1 {X : Env} (r : Router) (v : SynthVoice X) : MorphOsc :=
  (v.osc1.setFreq (oscFreq1 r v)).setShape v.osc1Shape

/-- The primary oscillator `osc2` as it stands when line 121 calls `process ()`. -/
def tunedOsc2 {X : Env} (r : Router) (v : SynthVoice X) : MorphOsc :=
  (v.osc2.setFreq (oscFreq2 r v)).setShape v.osc2Shape

/-- A sounding voice in `sampleEnv` for the unison block: square shape, base
frequency `baseHz`, detune `0` cents, unison mode `u`. -/
def unisonVoice (baseHz : ℚ) (u : Int) : SynthVoice sampleEnv :=
  { sampleVoice with osc1Shape := 1, baseHz := baseHz, lastNote := 69, unison := u, detuneCents := 0 }

/-- A sounding voice in `sampleEnv` whose base cutoff is `hz`. -/
def cutoffVoice (hz : ℚ) : SynthVoice sampleEnv :=
  { sampleVoice with cutoffHz := hz, lastNote := 69, baseHz := 440 }

/-- A voice in `sampleEnv` that has played and fully released a note: `reset`,
`startNote (69)`, one rendered block of one sample (which installs amplitude
parameters with release time `0`), then `stopNote` without tail-off. -/
def releasedVoice : SynthVoice sampleEnv :=
  let v0 : SynthVoice sampleEnv :=
    { sampleVoice with ampParams := { attack := 0.1, decay := 0.1, sustain := 1, release := 0 } }
  let v1 := v0.reset.startNote 69 1
  let v2 := (v1.renderNextBlock 2 1).voice
  v2.stopNote 0 false

/-- The voice as line 93 leaves it: `lfo.set (lfoRate, lfoDepth)` applied. -/
def SynthVoice.withLfoSet {X : Env} (v : SynthVoice X) : SynthVoice X :=
  { v with lfo := v.lfo.set v.lfoRate v.lfoDepth }

/-! ## Lemmas on the JUCE templates -/

theorem jlimit_mem {lo hi : ℚ} (h : lo ≤ hi) (x : ℚ) : lo ≤ jlimit lo hi x ∧ jlimit lo hi x ≤ hi := by
  unfold jlimit
  split_ifs with h1 h2
  · exact ⟨le_refl _, h⟩
  · exact ⟨h, le_refl _⟩
  · exact ⟨not_lt.mp h1, not_lt.mp h2⟩

theorem jlimit_of_mem {lo hi x : ℚ} (h1 : lo ≤ x) (h2 : x ≤ hi) : jlimit lo hi x = x := by
  unfold jlimit
  rw [if_neg (not_lt.mpr h1), if_neg (not_lt.mpr h2)]

theorem jmap_unit (t a b : ℚ) : jmap t 0 1 a b = a + (b - a) * t := by
  unfold jmap
  simp

/-- A blend `a + (b - a) * t` with `t` in `[0,1]` stays between the bounds of
`a` and `b`. -/
theorem blend_mem {a b t lo hi : ℚ} (ht0 : 0 ≤ t) (ht1 : t ≤ 1)
    (ha : lo ≤ a ∧ a ≤ hi) (hb : lo ≤ b ∧ b ≤ hi) :
    lo ≤ a + (b - a) * t ∧ a + (b - a) * t ≤ hi := by
  have e : a + (b - a) * t = (1 - t) * a + t * b := by ring
  rw [e]
  constructor
  · nlinarith [mul_nonneg (sub_nonneg.mpr ht1) (sub_nonneg.mpr ha.1), mul_nonneg ht0 (sub_nonneg.mpr hb.1)]
  · nlinarith [mul_nonneg (sub_nonneg.mpr ht1) (sub_nonneg.mpr ha.2), mul_nonneg ht0 (sub_nonneg.mpr hb.2)]

/-! ## The modulation router (claims C1, C2) -/

/-- C1, as stated, fails: for `lfoDest = 2` the cutoff multiplier is `0` and the
amplitude multiplier is `1`, and for `lfoDest = 3` the amplitude multiplier is
`0` and the cutoff multiplier is `1`. -/
theorem C1_codes_2_3_not_as_listed :
    ¬ ((router 2).lfoToCut = 1 ∧ (router 2).lfoToAmp = 0)
      ∧ ¬ ((router 3).lfoToAmp = 1 ∧ (router 3).lfoToCut = 0)
      ∧ (router 2).lfoToCut = 0 ∧ (router 2).lfoToAmp = 1
      ∧ (router 3).lfoToAmp = 0 ∧ (router 3).lfoToCut = 1 := by
  simp [router]

/-- C1 (amended): code 1 selects pitch, code 2 selects amplitude, code 3 selects
cutoff, code 4 selects fold and code 5 selects the downstream crush mix. -/
theorem C1_router_codes :
    router 1 = { lfoToPitch := 1, lfoToAmp := 0, lfoToCut := 0, lfoToFold := 0, lfoToCrush := 0 }
      ∧ router 2 = { lfoToPitch := 0, lfoToAmp := 1, lfoToCut := 0, lfoToFold := 0, lfoToCrush := 0 }
      ∧ router 3 = { lfoToPitch := 0, lfoToAmp := 0, lfoToCut := 1, lfoToFold := 0, lfoToCrush := 0 }
      ∧ router 4 = { lfoToPitch := 0, lfoToAmp := 0, lfoToCut := 0, lfoToFold := 1, lfoToCrush := 0 }
      ∧ router 5 = { lfoToPitch := 0, lfoToAmp := 0, lfoToCut := 0, lfoToFold := 0, lfoToCrush := 1 } := by
  simp [router]

/-- C2: for every integer `lfoDest` each of the five multipliers is `0` or `1`;
exactly one of them is `1` when `lfoDest` is in `1..5`; all five are `0` for
every other `lfoDest`, negative values included. -/
theorem C2_router_one_hot (lfoDest : Int) :
    (∀ m ∈ (router lfoDest).toList, m = 0 ∨ m = 1)
      ∧ (1 ≤ lfoDest ∧ lfoDest ≤ 5 → (router lfoDest).toList.count 1 = 1)
      ∧ (¬ (1 ≤ lfoDest ∧ lfoDest ≤ 5) → (router lfoDest).toList = [0, 0, 0, 0, 0]) := by
  refine ⟨?_, ?_, ?_⟩
  · intro m hm
    simp only [Router.toList, router, List.mem_cons, List.mem_singleton, List.not_mem_nil,
      or_false] at hm
    rcases hm with h | h | h | h | h <;> rw [h] <;> split_ifs <;> simp
  · rintro ⟨h1, h5⟩
    have : lfoDest = 1 ∨ lfoDest = 2 ∨ lfoDest = 3 ∨ lfoDest = 4 ∨ lfoDest = 5 := by omega
    rcases this with h | h | h | h | h <;> subst h <;> simp [Router.toList, router]
  · intro h
    have h1 : lfoDest ≠ 1 := by omega
    have h2 : lfoDest ≠ 2 := by omega
    have h3 : lfoDest ≠ 3 := by omega
    have h4 : lfoDest ≠ 4 := by omega
    have h5 : lfoDest ≠ 5 := by omega
    simp [Router.toList, router, h1, h2, h3, h4, h5]

/-- C2 at the codes `3`, `0` and `-7`. -/
theorem C2_router_one_hot_witness :
    (router 3).toList.count 1 = 1 ∧ (router 0).toList = [0, 0, 0, 0, 0]
      ∧ (router (-7)).toList = [0, 0, 0, 0, 0] :=
  ⟨(C2_router_one_hot 3).2.1 (by decide), (C2_router_one_hot 0).2.2 (by decide),
    (C2_router_one_hot (-7)).2.2 (by decide)⟩

/-! ## The oscillators (claims C4, C5, C6) -/

theorem MorphOsc.process_eq (X : Env) (o : MorphOsc) :
    o.process X
      = (morphWave X o.shape (advancePhase o.phase o.freq o.sr),
         { o with phase := advancePhase o.phase o.freq o.sr }) := rfl

theorem SimpleLFO.process_snd (X : Env) (g : SimpleLFO) :
    (g.process X).2 = { g with phase := advancePhase g.phase g.rate g.sr } := rfl

/-- One wrap restores `[0,1)` exactly when the increment lies in `[0,1]`. -/
theorem advancePhase_inUnit {phase freq sr : ℚ} (hsr : 0 < sr) (hp : InUnit phase)
    (hf : 0 ≤ freq ∧ freq ≤ sr) : InUnit (advancePhase phase freq sr) := by
  have h0 : 0 ≤ freq / sr := div_nonneg hf.1 hsr.le
  have h1 : freq / sr ≤ 1 := (div_le_one hsr).mpr hf.2
  obtain ⟨hp0, hp1⟩ := hp
  unfold advancePhase InUnit
  split_ifs with h
  · constructor <;> linarith
  · exact ⟨by linarith, not_le.mp h⟩

theorem morphOsc_ticks_sr (X : Env) (freqs : List ℚ) (o : MorphOsc) :
    (o.ticks X freqs).sr = o.sr := by
  induction freqs generalizing o with
  | nil => rfl
  | cons f fs ih =>
    unfold MorphOsc.ticks at ih ⊢
    rw [List.foldl_cons, ih]
    rfl

theorem morphOsc_ticks_inUnit (X : Env) (freqs : List ℚ) (o : MorphOsc) (hsr : 0 < o.sr)
    (hp : InUnit o.phase) (hfs : ∀ f ∈ freqs, 0 ≤ f ∧ f ≤ o.sr) :
    InUnit (o.ticks X freqs).phase := by
  induction freqs generalizing o with
  | nil => exact hp
  | cons f fs ih =>
    unfold MorphOsc.ticks at ih ⊢
    rw [List.foldl_cons]
    apply ih
    · exact hsr
    · exact advancePhase_inUnit hsr hp (hfs f (List.mem_cons_self _ _))
    · intro g hg
      exact hfs g (List.mem_cons_of_mem _ hg)

theorem simpleLFO_ticks_inUnit (X : Env) (n : Nat) (g : SimpleLFO) (hsr : 0 < g.sr)
    (hp : InUnit g.phase) (hr : 0 ≤ g.rate ∧ g.rate ≤ g.sr) : InUnit (g.ticks X n).phase := by
  induction n generalizing g with
  | zero => exact hp
  | succ k ih =>
    unfold SimpleLFO.ticks
    apply ih
    · exact hsr
    · exact advancePhase_inUnit hsr hp hr
    · exact hr

/-- C4, as stated, fails: from phase `0` at 44100 Hz, `setFreq (88200)` followed
by `process ()` leaves the phase at `1`, and `setFreq (-11025)` leaves it at
`-1/4`; a `SimpleLFO` with rate `88200` likewise ends at phase `1`. -/
theorem C4_phase_leaves_unit_interval :
    InUnit MorphOsc.init.phase ∧ 0 < MorphOsc.init.sr
      ∧ ((MorphOsc.init.setFreq 88200).process sampleEnv).2.phase = 1
      ∧ ¬ InUnit ((MorphOsc.init.setFreq 88200).process sampleEnv).2.phase
      ∧ ((MorphOsc.init.setFreq (-11025)).process sampleEnv).2.phase = -1 / 4
      ∧ ¬ InUnit ((MorphOsc.init.setFreq (-11025)).process sampleEnv).2.phase
      ∧ ((SimpleLFO.init.set 88200 1).process sampleEnv).2.phase = 1
      ∧ ¬ InUnit ((SimpleLFO.init.set 88200 1).process sampleEnv).2.phase := by
  norm_num [InUnit, MorphOsc.init, MorphOsc.setFreq, MorphOsc.process, SimpleLFO.init,
    SimpleLFO.set, SimpleLFO.process]

/-- C4 (amended): for a positive sample rate, a phase in `[0,1)` and a frequency
`f` with `0 ≤ f ≤ sampleRate`, the phase after `setFreq (f); process ()` is again
in `[0,1)`; hence, starting from `reset ()`, the phase is in `[0,1)` after any
number of ticks with such frequencies.  The same holds for `SimpleLFO::process`
with a rate in `[0, sampleRate]`. -/
theorem C4_phase_in_unit_interval (X : Env) (o : MorphOsc) (g : SimpleLFO) (f : ℚ)
    (freqs : List ℚ) (n : Nat)
    (hsr : 0 < o.sr) (hp : InUnit o.phase) (hf : 0 ≤ f ∧ f ≤ o.sr)
    (hfs : ∀ x ∈ freqs, 0 ≤ x ∧ x ≤ o.sr)
    (hgsr : 0 < g.sr) (hgp : InUnit g.phase) (hr : 0 ≤ g.rate ∧ g.rate ≤ g.sr) :
    InUnit ((o.setFreq f).process X).2.phase
      ∧ InUnit (o.reset.ticks X freqs).phase
      ∧ InUnit (g.process X).2.phase
      ∧ InUnit (g.reset.ticks X n).phase := by
  refine ⟨?_, ?_, ?_, ?_⟩
  · exact advancePhase_inUnit hsr hp hf
  · exact morphOsc_ticks_inUnit X freqs o.reset hsr ⟨le_refl _, one_pos⟩ hfs
  · exact advancePhase_inUnit hgsr hgp hr
  · exact simpleLFO_ticks_inUnit X n g.reset hgsr ⟨le_refl _, one_pos⟩ hr

/-- C4 (amended) at the default oscillator and LFO, three ticks each. -/
theorem C4_phase_in_unit_interval_witness :
    InUnit ((MorphOsc.init.setFreq 440).process sampleEnv).2.phase
      ∧ InUnit (MorphOsc.init.reset.ticks sampleEnv [440, 44100, 0]).phase
      ∧ InUnit (SimpleLFO.init.process sampleEnv).2.phase
      ∧ InUnit (SimpleLFO.init.reset.ticks sampleEnv 3).phase :=
  C4_phase_in_unit_interval sampleEnv MorphOsc.init SimpleLFO.init 440 [440, 44100, 0] 3
    (by norm_num [MorphOsc.init]) (by norm_num [InUnit, MorphOsc.init])
    (by norm_num [MorphOsc.init]) (by norm_num [MorphOsc.init])
    (by norm_num [SimpleLFO.init]) (by norm_num [InUnit, SimpleLFO.init])
    (by norm_num [SimpleLFO.init])

/-- C5: `setShape` stores a shape in `[0,1]` whatever its argument, and when the
sine term lies in `[-1,1]` and the phase after the advance lies in `[0,1)`, the
sample returned by `process ()` lies in `[-1,1]`. -/
theorem C5_shape_and_sample_bounded (X : Env) (o : MorphOsc) (s01 : ℚ)
    (hsin : ∀ x, -1 ≤ X.sin x ∧ X.sin x ≤ 1)
    (hp : InUnit ((o.setShape s01).process X).2.phase) :
    (0 ≤ (o.setShape s01).shape ∧ (o.setShape s01).shape ≤ 1)
      ∧ (-1 ≤ ((o.setShape s01).process X).1 ∧ ((o.setShape s01).process X).1 ≤ 1) := by
  refine ⟨jlimit_mem zero_le_one s01, ?_⟩
  rw [MorphOsc.process_eq] at hp ⊢
  simp only at hp ⊢
  generalize advancePhase (o.setShape s01).phase (o.setShape s01).freq (o.setShape s01).sr = p
    at hp ⊢
  obtain ⟨hp0, hp1⟩ := hp
  unfold morphWave
  simp only [jmap_unit]
  have hsaw : (-1 : ℚ) ≤ 2 * p - 1 ∧ 2 * p - 1 ≤ 1 := ⟨by linarith, by linarith⟩
  have hsq : (-1 : ℚ) ≤ (if p < 0.5 then 1 else -1) ∧ (if p < 0.5 then (1 : ℚ) else -1) ≤ 1 := by
    split_ifs <;> norm_num
  have m1 := jlimit_mem zero_le_one (jmap (o.setShape s01).shape 0 0.5 0 1)
  have m2 := jlimit_mem zero_le_one (jmap (o.setShape s01).shape 0.5 1 0 1)
  exact blend_mem m2.1 m2.2 (blend_mem m1.1 m1.2 (hsin _) hsaw) hsq

/-- C5 at the default oscillator with `setShape (7)`. -/
theorem C5_shape_and_sample_bounded_witness :
    (0 ≤ (MorphOsc.init.setShape 7).shape ∧ (MorphOsc.init.setShape 7).shape ≤ 1)
      ∧ (-1 ≤ ((MorphOsc.init.setShape 7).process sampleEnv).1
          ∧ ((MorphOsc.init.setShape 7).process sampleEnv).1 ≤ 1) :=
  C5_shape_and_sample_bounded sampleEnv MorphOsc.init 7
    (by
      intro x
      simp only [sampleEnv, quarterSin]
      split_ifs <;> norm_num)
    (by norm_num [InUnit, MorphOsc.init, MorphOsc.setShape, MorphOsc.process])

/-- C6: with `p` the phase after the advance, `process ()` returns the sine term
`sin (twoPi * p)` at shape `0`, the sawtooth `2 p - 1` at shape `0.5`, and the
square wave (`1` if `p < 0.5`, otherwise `-1`) at shape `1`. -/
theorem C6_anchor_shapes (X : Env) (o : MorphOsc) :
    ((o.setShape 0).process X).1 = X.sin (X.twoPi * advancePhase o.phase o.freq o.sr)
      ∧ ((o.setShape 0.5).process X).1 = 2 * advancePhase o.phase o.freq o.sr - 1
      ∧ ((o.setShape 1).process X).1 = (if advancePhase o.phase o.freq o.sr < 0.5 then 1 else -1)
      ∧ ((o.setShape 0).process X).2.phase = advancePhase o.phase o.freq o.sr
      ∧ ((o.setShape 0.5).process X).2.phase = advancePhase o.phase o.freq o.sr
      ∧ ((o.setShape 1).process X).2.phase = advancePhase o.phase o.freq o.sr := by
  refine ⟨?_, ?_, ?_, rfl, rfl, rfl⟩
  · norm_num [MorphOsc.process_eq, MorphOsc.setShape, morphWave, jmap, jlimit]
  · norm_num [MorphOsc.process_eq, MorphOsc.setShape, morphWave, jmap, jlimit]
  · norm_num [MorphOsc.process_eq, MorphOsc.setShape, morphWave, jmap, jlimit]

/-! ## The unison block (claims C3, C9) -/

theorem renderSample_osc1 {X : Env} (r : Router) (n : Nat) (v : SynthVoice X) :
    (renderSample r n v).1.osc1 = ((tunedOsc1 r v).process X).2 := by
  rfl

theorem renderSample_osc2 {X : Env} (r : Router) (n : Nat) (v : SynthVoice X) :
    (renderSample r n v).1.osc2 = ((tunedOsc2 r v).process X).2 := by
  rfl

theorem renderSample_s1_single {X : Env} (r : Router) (n : Nat) (v : SynthVoice X)
    (h : v.unison ≠ 3) : (renderSample r n v).2.s1 = ((tunedOsc1 r v).process X).1 := by
  simp only [renderSample, if_neg h]
  rfl

theorem renderSample_s2_single {X : Env} (r : Router) (n : Nat) (v : SynthVoice X)
    (h : v.unison ≠ 3) : (renderSample r n v).2.s2 = ((tunedOsc2 r v).process X).1 := by
  simp only [renderSample, if_neg h]
  rfl

theorem renderSample_s1_triple {X : Env} (r : Router) (n : Nat) (v : SynthVoice X)
    (h : v.unison = 3) :
    (renderSample r n v).2.s1
      = 0.3333 * (((tunedOsc1 r v).process X).1
          + ((((tunedOsc1 r v).process X).2.setFreq
                (oscFreq1 r v * X.centsToRatio v.detuneCents)).process X).1
          + ((((tunedOsc1 r v).process X).2.setFreq
                (oscFreq1 r v / X.centsToRatio v.detuneCents)).process X).1) := by
  simp only [renderSample, if_pos h]
  rfl

theorem renderSample_s2_triple {X : Env} (r : Router) (n : Nat) (v : SynthVoice X)
    (h : v.unison = 3) :
    (renderSample r n v).2.s2
      = 0.3333 * (((tunedOsc2 r v).process X).1
          + ((((tunedOsc2 r v).process X).2.setFreq
                (oscFreq2 r v * X.centsToRatio v.detuneCents)).process X).1
          + ((((tunedOsc2 r v).process X).2.setFreq
                (oscFreq2 r v / X.centsToRatio v.detuneCents)).process X).1) := by
  simp only [renderSample, if_pos h]
  rfl

/-- C3, as stated, fails.  In `sampleEnv` (detune ratio `1`), square shape,
phase `0`, 44100 Hz: at frequency `11025` the sample is `1` with unison `1` and
`-0.3333` with unison `3` (the copies are evaluated one tick further, at phase
`1/2`); at frequency `0` it is `1` with unison `1` and `0.9999` with unison
`3`. -/
theorem C3_unison3_differs_from_unison1 :
    sampleEnv.centsToRatio (unisonVoice 11025 3).detuneCents = 1
      ∧ InUnit (unisonVoice 11025 3).osc1.phase
      ∧ (renderSample (router 0) 0 (unisonVoice 11025 1)).2.s1 = 1
      ∧ (renderSample (router 0) 0 (unisonVoice 11025 3)).2.s1 = -3333 / 10000
      ∧ (renderSample (router 0) 0 (unisonVoice 0 1)).2.s1 = 1
      ∧ (renderSample (router 0) 0 (unisonVoice 0 3)).2.s1 = 9999 / 10000
      ∧ (renderSample (router 0) 0 (unisonVoice 11025 3)).2.s1
          ≠ (renderSample (router 0) 0 (unisonVoice 11025 1)).2.s1 := by
  norm_num [renderSample, unisonVoice, sampleVoice, sampleEnv, router, InUnit, MorphOsc.init,
    MorphOsc.setFreq, MorphOsc.setShape, MorphOsc.process, SimpleLFO.init, SimpleLFO.process,
    jmap, jlimit, quarterSin]

/-- C3 (amended): with unison `1` the per-oscillator sample `s1` is the primary
oscillator's own `process ()` output `p`.  With unison `3` and detune ratio
exactly `1` the two detuned copies yield one and the same sample `c`, the morph
waveform one further tick `f/sr` past the primary's post-tick phase, and
`s1 = 0.3333 * (p + c + c)`. -/
theorem C3_unison_at_zero_detune {X : Env} (r : Router) (n : Nat) (v : SynthVoice X)
    (hdet : X.centsToRatio v.detuneCents = 1) :
    (renderSample r n { v with unison := 1 }).2.s1 = ((tunedOsc1 r v).process X).1
      ∧ (renderSample r n { v with unison := 3 }).2.s1
          = 0.3333 * (((tunedOsc1 r v).process X).1
              + morphWave X (tunedOsc1 r v).shape
                  (advancePhase ((tunedOsc1 r v).process X).2.phase (oscFreq1 r v) (tunedOsc1 r v).sr)
              + morphWave X (tunedOsc1 r v).shape
                  (advancePhase ((tunedOsc1 r v).process X).2.phase (oscFreq1 r v) (tunedOsc1 r v).sr)) := by
  constructor
  · rw [renderSample_s1_single r n _ (by simp)]
    rfl
  · rw [renderSample_s1_triple r n _ rfl]
    have e : ({ v with unison := 3 } : SynthVoice X).detuneCents = v.detuneCents := rfl
    have e1 : tunedOsc1 r ({ v with unison := 3 } : SynthVoice X) = tunedOsc1 r v := rfl
    have e2 : oscFreq1 r ({ v with unison := 3 } : SynthVoice X) = oscFreq1 r v := rfl
    rw [e, e1, e2, hdet, mul_one, div_one]
    rfl

/-- C3 (amended) at the sample voice, whose detune ratio is `1`. -/
theorem C3_unison_at_zero_detune_witness :
    (renderSample (router 0) 0 { unisonVoice 11025 3 with unison := 1 }).2.s1
        = ((tunedOsc1 (router 0) (unisonVoice 11025 3)).process sampleEnv).1
      ∧ (renderSample (router 0) 0 { unisonVoice 11025 3 with unison := 3 }).2.s1
          = 0.3333 * (((tunedOsc1 (router 0) (unisonVoice 11025 3)).process sampleEnv).1
              + morphWave sampleEnv (tunedOsc1 (router 0) (unisonVoice 11025 3)).shape
                  (advancePhase ((tunedOsc1 (router 0) (unisonVoice 11025 3)).process sampleEnv).2.phase
                    (oscFreq1 (router 0) (unisonVoice 11025 3))
                    (tunedOsc1 (router 0) (unisonVoice 11025 3)).sr)
              + morphWave sampleEnv (tunedOsc1 (router 0) (unisonVoice 11025 3)).shape
                  (advancePhase ((tunedOsc1 (router 0) (unisonVoice 11025 3)).process sampleEnv).2.phase
                    (oscFreq1 (router 0) (unisonVoice 11025 3))
                    (tunedOsc1 (router 0) (unisonVoice 11025 3)).sr)) :=
  C3_unison_at_zero_detune (router 0) 0 (unisonVoice 11025 3)
    (by simp [sampleEnv, unisonVoice])

/-- C9: the state of `osc1` and `osc2` after one loop iteration is the same
with unison `3` as with unison `1`, and with unison `3` each per-oscillator
sample is `0.3333` times the sum of the primary's sample and the morph waveform
evaluated at the primary's post-tick phase advanced once by `(f * ratio) / sr`
and once by `(f / ratio) / sr`: a function of the primary's state alone. -/
theorem C9_unison_copies_transient {X : Env} (r : Router) (n : Nat) (v : SynthVoice X) :
    (renderSample r n { v with unison := 3 }).1.osc1 = (renderSample r n { v with unison := 1 }).1.osc1
      ∧ (renderSample r n { v with unison := 3 }).1.osc2
          = (renderSample r n { v with unison := 1 }).1.osc2
      ∧ (renderSample r n { v with unison := 3 }).2.s1
          = 0.3333 * ((renderSample r n { v with unison := 1 }).2.s1
              + morphWave X (renderSample r n { v with unison := 1 }).1.osc1.shape
                  (advancePhase (renderSample r n { v with unison := 1 }).1.osc1.phase
                    ((renderSample r n v).2.f1 * X.centsToRatio v.detuneCents)
                    (renderSample r n { v with unison := 1 }).1.osc1.sr)
              + morphWave X (renderSample r n { v with unison := 1 }).1.osc1.shape
                  (advancePhase (renderSample r n { v with unison := 1 }).1.osc1.phase
                    ((renderSample r n v).2.f1 / X.centsToRatio v.detuneCents)
                    (renderSample r n { v with unison := 1 }).1.osc1.sr))
      ∧ (renderSample r n { v with unison := 3 }).2.s2
          = 0.3333 * ((renderSample r n { v with unison := 1 }).2.s2
              + morphWave X (renderSample r n { v with unison := 1 }).1.osc2.shape
                  (advancePhase (renderSample r n { v with unison := 1 }).1.osc2.phase
                    ((renderSample r n v).2.f2 * X.centsToRatio v.detuneCents)
                    (renderSample r n { v with unison := 1 }).1.osc2.sr)
              + morphWave X (renderSample r n { v with unison := 1 }).1.osc2.shape
                  (advancePhase (renderSample r n { v with unison := 1 }).1.osc2.phase
                    ((renderSample r n v).2.f2 / X.centsToRatio v.detuneCents)
                    (renderSample r n { v with unison := 1 }).1.osc2.sr)) := by
  refine ⟨rfl, rfl, ?_, ?_⟩
  · rw [renderSample_s1_triple r n _ rfl, renderSample_s1_single r n { v with unison := 1 } (by simp)]
    rfl
  · rw [renderSample_s2_triple r n _ rfl, renderSample_s2_single r n { v with unison := 1 } (by simp)]
    rfl

/-! ## The sample loop with a silent LFO (claim C10) -/

theorem tremolo_at_zero {a : ℚ} (ha : 0 ≤ a ∧ a ≤ 1) (t : ℚ) :
    (if t > 0 then jlimit 0 1 (a * (0.5 + 0.5 * (0 + 1))) else a) = a := by
  have e : a * (0.5 + 0.5 * (0 + 1)) = a := by norm_num
  rw [e, jlimit_of_mem ha.1 ha.2]
  exact ite_self a

theorem lfo_silent {X : Env} (v : SynthVoice X) (hdepth : v.lfoDepth = 0) :
    (v.withLfoSet.lfo.process X).1 = 0 := by
  simp [SynthVoice.withLfoSet, SimpleLFO.set, SimpleLFO.process, hdepth]

/-- C10: with `lfoDepth = 0` (installed by `lfo.set` at line 93) and an
amplitude-envelope level in `[0,1]`, one loop iteration computes the same
oscillator frequencies, fold amount, filter cutoff and final amplitude for
every `lfoDest` as for `lfoDest = 0`; indeed the whole iteration, new voice
state included, is the same. -/
theorem C10_silent_lfo_ignores_destination {X : Env} (v : SynthVoice X) (lfoDest : Int) (n : Nat)
    (hdepth : v.lfoDepth = 0)
    (hamp : 0 ≤ (X.adsrGetNextSample v.envAmp).1 ∧ (X.adsrGetNextSample v.envAmp).1 ≤ 1) :
    (renderSample (router lfoDest) n v.withLfoSet).2.f1
        = (renderSample (router 0) n v.withLfoSet).2.f1
      ∧ (renderSample (router lfoDest) n v.withLfoSet).2.f2
          = (renderSample (router 0) n v.withLfoSet).2.f2
      ∧ (renderSample (router lfoDest) n v.withLfoSet).2.foldAmt
          = (renderSample (router 0) n v.withLfoSet).2.foldAmt
      ∧ (renderSample (router lfoDest) n v.withLfoSet).2.cutoff
          = (renderSample (router 0) n v.withLfoSet).2.cutoff
      ∧ (renderSample (router lfoDest) n v.withLfoSet).2.amp
          = (renderSample (router 0) n v.withLfoSet).2.amp
      ∧ renderSample (router lfoDest) n v.withLfoSet = renderSample (router 0) n v.withLfoSet := by
  have hl := lfo_silent v hdepth
  have hamp2 : 0 ≤ (X.adsrGetNextSample v.withLfoSet.envAmp).1
      ∧ (X.adsrGetNextSample v.withLfoSet.envAmp).1 ≤ 1 := hamp
  have key : renderSample (router lfoDest) n v.withLfoSet = renderSample (router 0) n v.withLfoSet := by
    simp only [renderSample, hl, zero_mul, mul_zero, add_zero, tremolo_at_zero hamp2]
  rw [key]
  exact ⟨rfl, rfl, rfl, rfl, rfl, rfl⟩

/-- C10 at a voice whose note has just started, for destination code `2`. -/
theorem C10_silent_lfo_ignores_destination_witness :
    (renderSample (router 2) 0 (sampleVoice.startNote 69 1).withLfoSet).2.f1
        = (renderSample (router 0) 0 (sampleVoice.startNote 69 1).withLfoSet).2.f1
      ∧ (renderSample (router 2) 0 (sampleVoice.startNote 69 1).withLfoSet).2.f2
          = (renderSample (router 0) 0 (sampleVoice.startNote 69 1).withLfoSet).2.f2
      ∧ (renderSample (router 2) 0 (sampleVoice.startNote 69 1).withLfoSet).2.foldAmt
          = (renderSample (router 0) 0 (sampleVoice.startNote 69 1).withLfoSet).2.foldAmt
      ∧ (renderSample (router 2) 0 (sampleVoice.startNote 69 1).withLfoSet).2.cutoff
          = (renderSample (router 0) 0 (sampleVoice.startNote 69 1).withLfoSet).2.cutoff
      ∧ (renderSample (router 2) 0 (sampleVoice.startNote 69 1).withLfoSet).2.amp
          = (renderSample (router 0) 0 (sampleVoice.startNote 69 1).withLfoSet).2.amp
      ∧ renderSample (router 2) 0 (sampleVoice.startNote 69 1).withLfoSet
          = renderSample (router 0) 0 (sampleVoice.startNote 69 1).withLfoSet :=
  C10_silent_lfo_ignores_destination (sampleVoice.startNote 69 1) 2 0 rfl
    (by
      show 0 ≤ (JuceADSR.getNextSample (JuceADSR.noteOn JuceADSR.init)).1
        ∧ (JuceADSR.getNextSample (JuceADSR.noteOn JuceADSR.init)).1 ≤ 1
      norm_num [JuceADSR.init, JuceADSR.setParameters, JuceADSR.getRate, JuceADSR.noteOn,
        JuceADSR.getNextSample, JuceADSR.goToNextState])

/-! ## The block renderer (claims C7, C8) -/

theorem renderNextBlock_idle {X : Env} (v : SynthVoice X) (numChannels num : Nat)
    (h : v.lastNote < 0) :
    v.renderNextBlock numChannels num = { voice := v, cutoffCalls := [] } := by
  unfold SynthVoice.renderNextBlock
  rw [if_pos h]

/-- After `reset ()` a block render returns the voice untouched and calls
nothing. -/
theorem renderNextBlock_after_reset {X : Env} (v : SynthVoice X) (numChannels num : Nat) :
    v.reset.renderNextBlock numChannels num = { voice := v.reset, cutoffCalls := [] } :=
  renderNextBlock_idle v.reset numChannels num (by simp [SynthVoice.reset])

theorem startNote_lastNote {X : Env} (v : SynthVoice X) (note : Int) (vel : ℚ) :
    (v.startNote note vel).lastNote = note := rfl

/-- Method `stopNote` never writes `lastNote`, whatever the envelope state. -/
theorem stopNote_lastNote {X : Env} (v : SynthVoice X) (vel : ℚ) (allowTailOff : Bool) :
    (v.stopNote vel allowTailOff).lastNote = v.lastNote := by
  unfold SynthVoice.stopNote
  simp only
  split_ifs <;> rfl

theorem renderSample_cutoff_mem {X : Env} (r : Router) (n : Nat) (v : SynthVoice X) :
    20 ≤ (renderSample r n v).2.cutoff ∧ (renderSample r n v).2.cutoff ≤ 20000 :=
  jlimit_mem (by norm_num) _

theorem renderSample_lastNote {X : Env} (r : Router) (n : Nat) (v : SynthVoice X) :
    (renderSample r n v).1.lastNote = v.lastNote := rfl

/-- The calls recorded by the sample loop: the ones already made, followed by
one clamped cutoff per sample. -/
theorem renderLoop_cutoffCalls {X : Env} (r : Router) (ks : List Nat) (acc : BlockResult X) :
    ∃ tail, (ks.foldl (renderStep r) acc).cutoffCalls = acc.cutoffCalls ++ tail
      ∧ tail.length = ks.length ∧ ∀ c ∈ tail, 20 ≤ c ∧ c ≤ 20000 := by
  induction ks generalizing acc with
  | nil => exact ⟨[], by simp⟩
  | cons k ks ih =>
    obtain ⟨tail, h1, h2, h3⟩ := ih (renderStep r acc k)
    refine ⟨(renderSample r k acc.voice).2.cutoff :: tail, ?_, ?_, ?_⟩
    · rw [List.foldl_cons, h1]
      simp [renderStep]
    · simp [h2]
    · intro c hc
      rcases List.mem_cons.mp hc with h | h
      · rw [h]
        exact renderSample_cutoff_mem r k acc.voice
      · exact h3 c h

/-- For a voice with `lastNote ≥ 0`, the first `setCutoffFrequency` call of a
block passes `cutoffHz` itself (line 94); the `num` calls that follow (line 140)
all lie in `[20, 20000]`. -/
theorem renderNextBlock_cutoffCalls {X : Env} (v : SynthVoice X) (numChannels num : Nat)
    (h : 0 ≤ v.lastNote) :
    ∃ tail, (v.renderNextBlock numChannels num).cutoffCalls = v.cutoffHz :: tail
      ∧ tail.length = num ∧ ∀ c ∈ tail, 20 ≤ c ∧ c ≤ 20000 := by
  unfold SynthVoice.renderNextBlock
  rw [if_neg (not_lt.mpr h)]
  obtain ⟨tail, h1, h2, h3⟩ := renderLoop_cutoffCalls (router v.lfoDest) (List.range num)
    ({ voice := { v with
        envAmp := X.adsrSetParameters v.ampParams v.envAmp
        envFilter := X.adsrSetParameters v.filtParams v.envFilter
        lfo := v.lfo.set v.lfoRate v.lfoDepth
        filter := X.filterSetResonance v.resonance (X.filterSetCutoffFrequency v.cutoffHz v.filter)
        temp := AudioBuffer.cleared numChannels num }, cutoffCalls := [v.cutoffHz] } : BlockResult X)
  exact ⟨tail, by simpa using h1, by simpa using h2, h3⟩

/-- C7 at the failing input: for a sounding voice with `cutoffHz = 5`, a block
of two samples makes the calls `setCutoffFrequency (5)`, then `(20)`, `(20)`;
with `cutoffHz = 30000` the calls are `(30000)`, `(20000)`, `(20000)`.  The
first call of each block is outside `[20, 20000]`. -/
theorem C7_block_start_cutoff_unclamped :
    0 ≤ (cutoffVoice 5).lastNote
      ∧ ((cutoffVoice 5).renderNextBlock 2 2).cutoffCalls = [5, 20, 20]
      ∧ ((cutoffVoice 30000).renderNextBlock 2 2).cutoffCalls = [30000, 20000, 20000]
      ∧ ¬ (∀ c ∈ ((cutoffVoice 5).renderNextBlock 2 2).cutoffCalls, 20 ≤ c ∧ c ≤ 20000) := by
  have h5 : ((cutoffVoice 5).renderNextBlock 2 2).cutoffCalls = [5, 20, 20] := by
    norm_num [SynthVoice.renderNextBlock, cutoffVoice, sampleVoice, List.range_succ, renderStep,
      renderSample, router, jlimit, SimpleLFO.set, SimpleLFO.process, SimpleLFO.init, sampleEnv,
      JuceADSR.init, JuceADSR.setParameters, JuceADSR.getRate, JuceADSR.getNextSample]
  have h3 : ((cutoffVoice 30000).renderNextBlock 2 2).cutoffCalls = [30000, 20000, 20000] := by
    norm_num [SynthVoice.renderNextBlock, cutoffVoice, sampleVoice, List.range_succ, renderStep,
      renderSample, router, jlimit, SimpleLFO.set, SimpleLFO.process, SimpleLFO.init, sampleEnv,
      JuceADSR.init, JuceADSR.setParameters, JuceADSR.getRate, JuceADSR.getNextSample]
  refine ⟨by decide, h5, h3, ?_⟩
  rw [h5]
  intro hall
  have := (hall 5 (by simp)).1
  norm_num at this

/-- A block render of a voice with `lastNote ≥ 0` and one sample advances the
LFO phase, whatever the envelopes report. -/
theorem renderNextBlock_advances_lfo {X : Env} (v : SynthVoice X) (numChannels : Nat)
    (h : 0 ≤ v.lastNote) :
    (v.renderNextBlock numChannels 1).voice.lfo.phase
      = advancePhase v.lfo.phase v.lfoRate v.lfo.sr := by
  unfold SynthVoice.renderNextBlock
  rw [if_neg (not_lt.mpr h)]
  rfl

/-- C8 at the failing input: `releasedVoice` has played note 69 and was stopped
without tail-off; its amplitude envelope is idle and `clearCurrentNote ()` has
run, but `lastNote` is still `69`.  The next one-sample block is rendered in
full: the LFO phase moves from `5/44100` to `10/44100`, the phase of `osc1`
from `440/44100` to `880/44100`, and the filter receives two
`setCutoffFrequency` calls. -/
theorem C8_released_voice_still_renders :
    sampleEnv.adsrIsActive releasedVoice.envAmp = false
      ∧ releasedVoice.currentlyPlayingNote = -1
      ∧ releasedVoice.lastNote = 69
      ∧ releasedVoice.lfo.phase = 5 / 44100
      ∧ (releasedVoice.renderNextBlock 2 1).voice.lfo.phase = 10 / 44100
      ∧ releasedVoice.osc1.phase = 440 / 44100
      ∧ (releasedVoice.renderNextBlock 2 1).voice.osc1.phase = 880 / 44100
      ∧ (releasedVoice.renderNextBlock 2 1).cutoffCalls = [1200, 1200]
      ∧ (releasedVoice.renderNextBlock 2 1).voice ≠ releasedVoice := by
  refine ⟨by decide!, by decide!, by decide!, by decide!, by decide!, by decide!, by decide!,
    by decide!, ?_⟩
  intro h
  have hp : (releasedVoice.renderNextBlock 2 1).voice.lfo.phase = releasedVoice.lfo.phase :=
    congrArg (fun v => v.lfo.phase) h
  revert hp
  decide!

end VirtualInstrument
